import Mathlib

/-!
Verification development for the `handfat-roi-kalkylator` repository
(`src/app/page.tsx`).  The core logic of the application consists of:

* `clamp` and `toNum` (lines 14–23): input sanitisation helpers;
* the `parsed` memo (lines 340–360): the input normalizer;
* `calc` (lines 63–123): the calculation engine;
* `safetyNotes` (lines 364–388): the advisory rule evaluator.

Modelling conventions.  JavaScript numbers are modelled as exact rationals
(`ℚ`); the distinguished value NaN is modelled by `none` of `Option ℚ`.
After `toNum` every value is either a finite number (`some q`) or NaN
(`none`); the infinities cannot survive `toNum` (it maps every non-finite
number to NaN via `Number.isFinite`), so collapsing them into `none` is
behaviour-preserving for everything downstream of `toNum`.
-/

namespace Handfat

/-- A raw JavaScript field value: either a number (with `none` standing for
NaN / non-finite values) or a string, mirroring the `number | string` fields
of `StateType` in the source. -/
inductive JSVal where
  | num (q : Option ℚ)
  | str (s : String)
deriving DecidableEq

/-- Value of a list of decimal digit characters, most significant first. -/
def digitsVal (l : List Char) : ℕ :=
  l.foldl (fun a c => 10 * a + (c.toNat - '0'.toNat)) 0

/-- Mantissa part of a JavaScript numeric literal: decimal digits with an
optional fraction (`"12"`, `"12."`, `"12.5"`, `".5"`); at least one digit is
required.  Returns `none` when the text is not of this shape. -/
def parseMantissa (l : List Char) : Option ℚ :=
  let ip := l.takeWhile Char.isDigit
  let rest := l.drop ip.length
  match rest with
  | [] => if ip.isEmpty then none else some (digitsVal ip : ℚ)
  | '.' :: fr =>
      if fr.all Char.isDigit && !(ip.isEmpty && fr.isEmpty) then
        some ((digitsVal ip : ℚ) + (digitsVal fr : ℚ) / (10 : ℚ) ^ fr.length)
      else none
  | _ => none

/-- Exponent part of a JavaScript numeric literal (the text after `e`/`E`):
an optional sign followed by at least one digit. -/
def parseExp (l : List Char) : Option ℤ :=
  let sgn : ℤ := match l with
    | '-' :: _ => -1
    | _ => 1
  let l₁ := match l with
    | '+' :: t => t
    | '-' :: t => t
    | _ => l
  if !l₁.isEmpty && l₁.all Char.isDigit then
    some (sgn * (digitsVal l₁ : ℤ))
  else none

/-- Models the JavaScript `Number()` conversion on a whitespace-free string:
the empty string converts to `0`; otherwise an optional sign, then decimal
digits with optional fraction and optional exponent.  `"Infinity"` and
unparseable text both yield `none`, which is what `toNum`'s
`Number.isFinite` guard produces for them anyway.  (Hexadecimal, octal and
binary literals are not modelled; this UI never produces them.) -/
def jsNumber (s : String) : Option ℚ :=
  match s.toList with
  | [] => some 0
  | l =>
    let neg : Bool := match l with
      | '-' :: _ => true
      | _ => false
    let l₁ := match l with
      | '+' :: t => t
      | '-' :: t => t
      | _ => l
    if l₁ = "Infinity".toList then none
    else
      let mant := l₁.takeWhile (fun c => c != 'e' && c != 'E')
      let rest := l₁.drop mant.length
      match parseMantissa mant with
      | none => none
      | some m =>
        let signed : ℚ := if neg then -m else m
        match rest with
        | [] => some signed
        | _ :: expPart =>
          match parseExp expPart with
          | none => none
          | some e => some (signed * (10 : ℚ) ^ e)

/-- Models `v.replace(/\s/g, "")`: removes every whitespace character. -/
def stripWS (s : String) : String :=
  ⟨s.toList.filter (fun c => !(c = ' ' || c = '\t' || c = '\n' || c = '\r' || c = '\x0b' || c = '\x0c'))⟩

/-- Models `v.replace(",", ".")`: replaces the FIRST comma (only) by a dot. -/
def commaToDotL : List Char → List Char
  | [] => []
  | c :: t => if c = ',' then '.' :: t else c :: commaToDotL t

def commaToDot (s : String) : String := ⟨commaToDotL s.toList⟩

/-- Embeds `toNum` (page.tsx lines 19–23): for a string, strip whitespace and
convert the first decimal comma to a point, then convert with `Number()`;
finally, any non-finite result becomes NaN (`none`). -/
def toNum : JSVal → Option ℚ
  | JSVal.num q => q
  | JSVal.str s => jsNumber (commaToDot (stripWS s))

/-- Embeds `clamp` (page.tsx lines 14–17): NaN (`none`) clamps to the lower
bound; otherwise `min(max, max(min, n))`. -/
def clamp (n : Option ℚ) (lo hi : ℚ) : ℚ :=
  match n with
  | none => lo
  | some x => min hi (max lo x)

/-- Embeds `StateType` (page.tsx lines 125–141): the raw user-entered state. -/
structure StateType where
  beds : JSVal
  occupancyPct : JSVal
  alosDays : JSVal
  vriPer1000BedDays : JSVal
  vriPerYearOverride : JSVal
  gramNegPct : JSVal
  sinkAttributablePct : JSVal
  effectPct : JSVal
  extraDaysPerVRI : JSVal
  costPerBedDay : JSVal
  costPerVRI : JSVal
  pricingMode : String
  capex : JSVal
  opexYear : JSVal
  capexAmortYears : JSVal
deriving DecidableEq

/-- Embeds `CalcInput` (page.tsx lines 45–61), the normalized input record.
All fields are finite rationals except `vriPerYearOverride`, which the
normalizer deliberately leaves as finite-or-NaN (`Option ℚ`). -/
structure CalcInput where
  beds : ℚ
  occupancyPct : ℚ
  alosDays : ℚ
  vriPer1000BedDays : ℚ
  vriPerYearOverride : Option ℚ
  gramNegPct : ℚ
  sinkAttributablePct : ℚ
  effectPct : ℚ
  extraDaysPerVRI : ℚ
  costPerBedDay : ℚ
  costPerVRI : ℚ
  pricingMode : String
  capex : ℚ
  opexYear : ℚ
  capexAmortYears : ℚ
deriving DecidableEq

/-- Embeds the `parsed` memo (page.tsx lines 340–360): clamp every bounded
field to its range; `vriPerYearOverride` is kept finite-or-NaN (the source's
`Number.isFinite(vriOverride) ? vriOverride : NaN` is the identity on
`toNum`'s output, which is already finite-or-NaN); `pricingMode` is spread
through from the raw state unchanged. -/
def normalize (s : StateType) : CalcInput :=
  { beds := clamp (toNum s.beds) 0 2000
    occupancyPct := clamp (toNum s.occupancyPct) 0 100
    alosDays := clamp (toNum s.alosDays) 0 365
    vriPer1000BedDays := clamp (toNum s.vriPer1000BedDays) 0 200
    vriPerYearOverride := toNum s.vriPerYearOverride
    gramNegPct := clamp (toNum s.gramNegPct) 0 100
    sinkAttributablePct := clamp (toNum s.sinkAttributablePct) 0 100
    effectPct := clamp (toNum s.effectPct) 0 100
    extraDaysPerVRI := clamp (toNum s.extraDaysPerVRI) 0 365
    costPerBedDay := clamp (toNum s.costPerBedDay) 0 1000000
    costPerVRI := clamp (toNum s.costPerVRI) 0 10000000
    pricingMode := s.pricingMode
    capex := clamp (toNum s.capex) 0 100000000
    opexYear := clamp (toNum s.opexYear) 0 100000000
    capexAmortYears := clamp (toNum s.capexAmortYears) 1 20 }

/-- Result record of `calc` (page.tsx lines 107–122).  `roi`, `paybackYears`
and `vriPer1000` may be NaN (`none`); every other numeric field is finite
whenever the input fields are. -/
structure CalcResult where
  bedDays : ℚ
  vri : ℚ
  vriPer1000 : Option ℚ
  gramNeg : ℚ
  sinkGramNeg : ℚ
  avoided : ℚ
  savedBedDays : ℚ
  savedSEK : ℚ
  annualCost : ℚ
  net : ℚ
  roi : Option ℚ
  paybackYears : Option ℚ
  usedOverride : Bool
  vriFromRate : ℚ
deriving DecidableEq

/-- Line 79: `occupancy = clamp(occupancyPct / 100, 0, 1)`. -/
def occupancy (i : CalcInput) : ℚ := clamp (some (i.occupancyPct / 100)) 0 1

/-- Line 80: `bedDays = beds * 365 * occupancy`. -/
def bedDays (i : CalcInput) : ℚ := i.beds * 365 * occupancy i

/-- Line 82: `vriFromRate = (vriPer1000BedDays / 1000) * bedDays`. -/
def vriFromRate (i : CalcInput) : ℚ := (i.vriPer1000BedDays / 1000) * bedDays i

/-- Lines 83 and 120: `Number.isFinite(vriPerYearOverride) && vriPerYearOverride > 0`. -/
def usedOverride (i : CalcInput) : Bool :=
  match i.vriPerYearOverride with
  | some x => decide (0 < x)
  | none => false

/-- Line 83: `vri = isFinite(override) && override > 0 ? override : vriFromRate`. -/
def vri (i : CalcInput) : ℚ :=
  match i.vriPerYearOverride with
  | some x => if 0 < x then x else vriFromRate i
  | none => vriFromRate i

/-- Line 85: `gramNeg = vri * (gramNegPct / 100)`. -/
def gramNeg (i : CalcInput) : ℚ := vri i * (i.gramNegPct / 100)

/-- Line 86: `sinkGramNeg = gramNeg * (sinkAttributablePct / 100)`. -/
def sinkGramNeg (i : CalcInput) : ℚ := gramNeg i * (i.sinkAttributablePct / 100)

/-- Line 87: `avoided = sinkGramNeg * (effectPct / 100)`. -/
def avoided (i : CalcInput) : ℚ := sinkGramNeg i * (i.effectPct / 100)

/-- Line 89: `savedBedDays = avoided * extraDaysPerVRI`. -/
def savedBedDays (i : CalcInput) : ℚ := avoided i * i.extraDaysPerVRI

/-- Lines 91–96: the pricing branch. -/
def savedSEK (i : CalcInput) : ℚ :=
  if i.pricingMode = "perVRI" then avoided i * i.costPerVRI
  else savedBedDays i * i.costPerBedDay

/-- Line 98: `annualizedCapex = capexAmortYears > 0 ? capex / capexAmortYears : capex`. -/
def annualizedCapex (i : CalcInput) : ℚ :=
  if 0 < i.capexAmortYears then i.capex / i.capexAmortYears else i.capex

/-- Line 99: `annualCost = annualizedCapex + opexYear`. -/
def annualCost (i : CalcInput) : ℚ := annualizedCapex i + i.opexYear

/-- Line 101: `net = savedSEK - annualCost`. -/
def net (i : CalcInput) : ℚ := savedSEK i - annualCost i

/-- Line 102: `roi = annualCost > 0 ? net / annualCost : NaN`. -/
def roi (i : CalcInput) : Option ℚ :=
  if 0 < annualCost i then some (net i / annualCost i) else none

/-- Line 103: `paybackYears = savedSEK > opexYear ? capex / Math.max(1, savedSEK - opexYear) : NaN`. -/
def paybackYears (i : CalcInput) : Option ℚ :=
  if i.opexYear < savedSEK i then some (i.capex / max 1 (savedSEK i - i.opexYear))
  else none

/-- Line 105: `vriPer1000 = bedDays > 0 ? (vri / bedDays) * 1000 : NaN`. -/
def vriPer1000 (i : CalcInput) : Option ℚ :=
  if 0 < bedDays i then some ((vri i / bedDays i) * 1000) else none

/-- Embeds `calc` (page.tsx lines 63–123), assembled from the per-metric
definitions above, each of which transcribes one line of the source. -/
def calculate (i : CalcInput) : CalcResult :=
  { bedDays := bedDays i
    vri := vri i
    vriPer1000 := vriPer1000 i
    gramNeg := gramNeg i
    sinkGramNeg := sinkGramNeg i
    avoided := avoided i
    savedBedDays := savedBedDays i
    savedSEK := savedSEK i
    annualCost := annualCost i
    net := net i
    roi := roi i
    paybackYears := paybackYears i
    usedOverride := usedOverride i
    vriFromRate := vriFromRate i }

/-- Advisory message 1 (page.tsx line 368). -/
def noteZeroRate : String :=
  "Du har satt VRI/1000 vårddygn till 0 och ingen override är angiven → kalkylen ger 0 infektioner."

/-- Advisory message 2 (page.tsx line 372). -/
def noteLowSink : String :=
  "Handfatskoppling är satt mycket lågt (≤ 5%). Det är defensivt, men kan underskatta potentialen."

/-- Advisory message 3 (page.tsx line 376). -/
def noteLowEffect : String :=
  "Effekt är satt mycket lågt (≤ 5%). Bra som worst-case-scenario."

/-- Advisory message 4 (page.tsx line 380). -/
def noteZeroCostBedDay : String :=
  "Kostnad per vårddygn är 0 → besparing blir 0 i vårddygnsläget."

/-- Advisory message 5 (page.tsx line 384). -/
def noteZeroCostVRI : String :=
  "Kostnad per VRI är 0 → besparing blir 0 i kostnad/VRI-läget."

/-- Embeds the `safetyNotes` memo (page.tsx lines 364–388): starting from an
empty list, each of the five independent predicates appends its fixed
message when it holds, in declaration order. -/
def safetyNotes (parsed : CalcInput) (result : CalcResult) : List String :=
  let notes : List String := []
  let notes := if result.usedOverride = false ∧ parsed.vriPer1000BedDays = 0
    then notes ++ [noteZeroRate] else notes
  let notes := if parsed.sinkAttributablePct ≤ 5
    then notes ++ [noteLowSink] else notes
  let notes := if parsed.effectPct ≤ 5
    then notes ++ [noteLowEffect] else notes
  let notes := if parsed.pricingMode = "bedDays" ∧ parsed.costPerBedDay = 0
    then notes ++ [noteZeroCostBedDay] else notes
  let notes := if parsed.pricingMode = "perVRI" ∧ parsed.costPerVRI = 0
    then notes ++ [noteZeroCostVRI] else notes
  notes

/-- Embeds `defaults` (page.tsx lines 280–296): the default raw state.
`vriPerYearOverride` defaults to the empty string ("unset"). -/
def defaults : StateType :=
  { beds := JSVal.num (some 24)
    occupancyPct := JSVal.num (some 92)
    alosDays := JSVal.num (some 4)
    vriPer1000BedDays := JSVal.num (some 6)
    vriPerYearOverride := JSVal.str ""
    gramNegPct := JSVal.num (some 35)
    sinkAttributablePct := JSVal.num (some 10)
    effectPct := JSVal.num (some 10)
    extraDaysPerVRI := JSVal.num (some 5)
    costPerBedDay := JSVal.num (some 12000)
    costPerVRI := JSVal.num (some 90000)
    pricingMode := "bedDays"
    capex := JSVal.num (some 350000)
    opexYear := JSVal.num (some 25000)
    capexAmortYears := JSVal.num (some 5) }

/-- The §4.1 bounds table as a predicate on normalized inputs: every bounded
numeric field lies in its inclusive range.  (`vriPerYearOverride` and
`pricingMode` are deliberately unconstrained, as in the spec.) -/
def InBounds (i : CalcInput) : Prop :=
  0 ≤ i.beds ∧ i.beds ≤ 2000 ∧
  0 ≤ i.occupancyPct ∧ i.occupancyPct ≤ 100 ∧
  0 ≤ i.alosDays ∧ i.alosDays ≤ 365 ∧
  0 ≤ i.vriPer1000BedDays ∧ i.vriPer1000BedDays ≤ 200 ∧
  0 ≤ i.gramNegPct ∧ i.gramNegPct ≤ 100 ∧
  0 ≤ i.sinkAttributablePct ∧ i.sinkAttributablePct ≤ 100 ∧
  0 ≤ i.effectPct ∧ i.effectPct ≤ 100 ∧
  0 ≤ i.extraDaysPerVRI ∧ i.extraDaysPerVRI ≤ 365 ∧
  0 ≤ i.costPerBedDay ∧ i.costPerBedDay ≤ 1000000 ∧
  0 ≤ i.costPerVRI ∧ i.costPerVRI ≤ 10000000 ∧
  0 ≤ i.capex ∧ i.capex ≤ 100000000 ∧
  0 ≤ i.opexYear ∧ i.opexYear ≤ 100000000 ∧
  1 ≤ i.capexAmortYears ∧ i.capexAmortYears ≤ 20

instance (i : CalcInput) : Decidable (InBounds i) := by
  unfold InBounds; infer_instance

/-- The `clamp` helper always lands in `[lo, hi]` (when `lo ≤ hi`) and sends
NaN to `lo`. -/
theorem clamp_mem (v : Option ℚ) (lo hi : ℚ) (h : lo ≤ hi) :
    lo ≤ clamp v lo hi ∧ clamp v lo hi ≤ hi ∧ (v = none → clamp v lo hi = lo) := by
  cases v with
  | none => exact ⟨le_refl lo, h, fun _ => rfl⟩
  | some x =>
    exact ⟨le_min h (le_max_left lo x), min_le_left _ _, fun hx => by cases hx⟩

/-- C1: for every normalized input, a finite strictly positive
`vriPerYearOverride` makes `calculate` return `vri = vriPerYearOverride` and
`usedOverride = true`, regardless of `vriPer1000BedDays`; an unset (NaN),
zero, or negative override makes it return `vri = vriFromRate` and
`usedOverride = false`. -/
theorem override_precedence (i : CalcInput) :
    (∀ x : ℚ, i.vriPerYearOverride = some x → 0 < x →
      (calculate i).vri = x ∧ (calculate i).usedOverride = true ∧
      ∀ r : ℚ, (calculate { i with vriPer1000BedDays := r }).vri = x)
  ∧ ((i.vriPerYearOverride = none ∨ ∃ x, i.vriPerYearOverride = some x ∧ x ≤ 0) →
      (calculate i).vri = (calculate i).vriFromRate ∧
      (calculate i).usedOverride = false) := by
  constructor
  · intro x hx hpos
    refine ⟨?_, ?_, fun r => ?_⟩ <;> simp [calculate, vri, usedOverride, hx, hpos]
  · rintro (hn | ⟨x, hx, hle⟩)
    · simp [calculate, vri, usedOverride, hn]
    · simp [calculate, vri, usedOverride, hx, not_lt.mpr hle]

/-- An input with a positive finite override, for instantiating
`override_precedence`. -/
def iOverride : CalcInput := { normalize defaults with vriPerYearOverride := some 7 }

/-- Witness for C1 at a concrete input with override `7`. -/
theorem override_precedence_witness :
    (calculate iOverride).vri = 7 ∧ (calculate iOverride).usedOverride = true :=
  ⟨((override_precedence iOverride).1 7 (by decide) (by norm_num)).1,
   ((override_precedence iOverride).1 7 (by decide) (by norm_num)).2.1⟩

/-- C2: for every raw state, each bounded field of the normalizer's output
lies within its §4.1 bounds, and a raw value that parses (after whitespace
stripping and comma conversion, i.e. via `toNum`) to NaN normalizes to the
field's lower bound. -/
theorem normalize_clamping (s : StateType) :
    (0 ≤ (normalize s).beds ∧ (normalize s).beds ≤ 2000 ∧
      (toNum s.beds = none → (normalize s).beds = 0)) ∧
    (0 ≤ (normalize s).occupancyPct ∧ (normalize s).occupancyPct ≤ 100 ∧
      (toNum s.occupancyPct = none → (normalize s).occupancyPct = 0)) ∧
    (0 ≤ (normalize s).alosDays ∧ (normalize s).alosDays ≤ 365 ∧
      (toNum s.alosDays = none → (normalize s).alosDays = 0)) ∧
    (0 ≤ (normalize s).vriPer1000BedDays ∧ (normalize s).vriPer1000BedDays ≤ 200 ∧
      (toNum s.vriPer1000BedDays = none → (normalize s).vriPer1000BedDays = 0)) ∧
    (0 ≤ (normalize s).gramNegPct ∧ (normalize s).gramNegPct ≤ 100 ∧
      (toNum s.gramNegPct = none → (normalize s).gramNegPct = 0)) ∧
    (0 ≤ (normalize s).sinkAttributablePct ∧ (normalize s).sinkAttributablePct ≤ 100 ∧
      (toNum s.sinkAttributablePct = none → (normalize s).sinkAttributablePct = 0)) ∧
    (0 ≤ (normalize s).effectPct ∧ (normalize s).effectPct ≤ 100 ∧
      (toNum s.effectPct = none → (normalize s).effectPct = 0)) ∧
    (0 ≤ (normalize s).extraDaysPerVRI ∧ (normalize s).extraDaysPerVRI ≤ 365 ∧
      (toNum s.extraDaysPerVRI = none → (normalize s).extraDaysPerVRI = 0)) ∧
    (0 ≤ (normalize s).costPerBedDay ∧ (normalize s).costPerBedDay ≤ 1000000 ∧
      (toNum s.costPerBedDay = none → (normalize s).costPerBedDay = 0)) ∧
    (0 ≤ (normalize s).costPerVRI ∧ (normalize s).costPerVRI ≤ 10000000 ∧
      (toNum s.costPerVRI = none → (normalize s).costPerVRI = 0)) ∧
    (0 ≤ (normalize s).capex ∧ (normalize s).capex ≤ 100000000 ∧
      (toNum s.capex = none → (normalize s).capex = 0)) ∧
    (0 ≤ (normalize s).opexYear ∧ (normalize s).opexYear ≤ 100000000 ∧
      (toNum s.opexYear = none → (normalize s).opexYear = 0)) ∧
    (1 ≤ (normalize s).capexAmortYears ∧ (normalize s).capexAmortYears ≤ 20 ∧
      (toNum s.capexAmortYears = none → (normalize s).capexAmortYears = 1)) :=
  ⟨clamp_mem _ _ _ (by norm_num), clamp_mem _ _ _ (by norm_num),
   clamp_mem _ _ _ (by norm_num), clamp_mem _ _ _ (by norm_num),
   clamp_mem _ _ _ (by norm_num), clamp_mem _ _ _ (by norm_num),
   clamp_mem _ _ _ (by norm_num), clamp_mem _ _ _ (by norm_num),
   clamp_mem _ _ _ (by norm_num), clamp_mem _ _ _ (by norm_num),
   clamp_mem _ _ _ (by norm_num), clamp_mem _ _ _ (by norm_num),
   clamp_mem _ _ _ (by norm_num)⟩

/-- A raw state with unparseable text in the `beds` field. -/
def sBadBeds : StateType := { defaults with beds := JSVal.str "abc" }

/-- Witness for C2: the unparseable `beds` entry normalizes to the lower
bound `0`. -/
theorem normalize_clamping_witness : (normalize sBadBeds).beds = 0 :=
  (normalize_clamping sBadBeds).1.2.2 (by decide)

/-- C3: `paybackYears` is NaN exactly when `savedSEK ≤ opexYear`, and when
`savedSEK` exceeds `opexYear` by exactly `1`, `paybackYears` equals `capex`. -/
theorem payback_boundary (i : CalcInput) :
    ((calculate i).paybackYears = none ↔ (calculate i).savedSEK ≤ i.opexYear) ∧
    ((calculate i).savedSEK = i.opexYear + 1 →
      (calculate i).paybackYears = some i.capex) := by
  constructor
  · show paybackYears i = none ↔ savedSEK i ≤ i.opexYear
    unfold paybackYears
    split_ifs with h
    · exact iff_of_false (by simp) (not_le.mpr h)
    · exact iff_of_true rfl (not_lt.mp h)
  · intro h1
    have h1' : savedSEK i = i.opexYear + 1 := h1
    show paybackYears i = some i.capex
    have hlt : i.opexYear < savedSEK i := by rw [h1']; linarith
    rw [paybackYears, if_pos hlt, h1']
    norm_num

/-- An input whose savings exceed the operating cost by exactly `1`. -/
def iPayback : CalcInput :=
  { beds := 1, occupancyPct := 100, alosDays := 4, vriPer1000BedDays := 0,
    vriPerYearOverride := some 1000, gramNegPct := 100, sinkAttributablePct := 100,
    effectPct := 100, extraDaysPerVRI := 0, costPerBedDay := 0, costPerVRI := 1,
    pricingMode := "perVRI", capex := 42, opexYear := 999, capexAmortYears := 1 }

/-- Witness for C3: at `iPayback`, `savedSEK = 1000 = opexYear + 1`, so
payback equals the capital expenditure `42`. -/
theorem payback_boundary_witness : (calculate iPayback).paybackYears = some 42 :=
  (payback_boundary iPayback).2 (by
    show savedSEK iPayback = iPayback.opexYear + 1
    norm_num [savedSEK, avoided, sinkGramNeg, gramNeg, vri, iPayback])

/-- A raw state with an unparseable override and an out-of-enum pricing
mode, exhibiting that the normalizer leaves both untouched. -/
def sOdd : StateType :=
  { defaults with vriPerYearOverride := JSVal.str "x", pricingMode := "mixed" }

/-- Counterexample for C4: the normalizer emits NaN (`none`) for an
unparseable `vriPerYearOverride`, and passes a `pricingMode` outside the
two enum values through unchanged. -/
theorem normalize_invariants_cex :
    (normalize sOdd).vriPerYearOverride = none ∧
    (normalize sOdd).pricingMode ≠ "bedDays" ∧
    (normalize sOdd).pricingMode ≠ "perVRI" := by
  refine ⟨by decide, by decide, by decide⟩

/-- C4 (amended): every bounded numeric field of the normalizer's output
lies within its §4.1 bounds (hence is finite); `vriPerYearOverride` is kept
finite-or-NaN, exactly the value `toNum` parses; `pricingMode` is passed
through from the raw state unchanged. -/
theorem normalize_invariants (s : StateType) :
    InBounds (normalize s) ∧
    (normalize s).vriPerYearOverride = toNum s.vriPerYearOverride ∧
    (normalize s).pricingMode = s.pricingMode := by
  refine ⟨?_, rfl, rfl⟩
  unfold InBounds
  exact ⟨(clamp_mem _ _ _ (by norm_num)).1, (clamp_mem _ _ _ (by norm_num)).2.1,
    (clamp_mem _ _ _ (by norm_num)).1, (clamp_mem _ _ _ (by norm_num)).2.1,
    (clamp_mem _ _ _ (by norm_num)).1, (clamp_mem _ _ _ (by norm_num)).2.1,
    (clamp_mem _ _ _ (by norm_num)).1, (clamp_mem _ _ _ (by norm_num)).2.1,
    (clamp_mem _ _ _ (by norm_num)).1, (clamp_mem _ _ _ (by norm_num)).2.1,
    (clamp_mem _ _ _ (by norm_num)).1, (clamp_mem _ _ _ (by norm_num)).2.1,
    (clamp_mem _ _ _ (by norm_num)).1, (clamp_mem _ _ _ (by norm_num)).2.1,
    (clamp_mem _ _ _ (by norm_num)).1, (clamp_mem _ _ _ (by norm_num)).2.1,
    (clamp_mem _ _ _ (by norm_num)).1, (clamp_mem _ _ _ (by norm_num)).2.1,
    (clamp_mem _ _ _ (by norm_num)).1, (clamp_mem _ _ _ (by norm_num)).2.1,
    (clamp_mem _ _ _ (by norm_num)).1, (clamp_mem _ _ _ (by norm_num)).2.1,
    (clamp_mem _ _ _ (by norm_num)).1, (clamp_mem _ _ _ (by norm_num)).2.1,
    (clamp_mem _ _ _ (by norm_num)).1, (clamp_mem _ _ _ (by norm_num)).2.1⟩

/-- The normalized form of the default raw state: the blank override parses
to `some 0`; every other field is its default value. -/
def iDefaults : CalcInput :=
  { beds := 24, occupancyPct := 92, alosDays := 4, vriPer1000BedDays := 6,
    vriPerYearOverride := some 0, gramNegPct := 35, sinkAttributablePct := 10,
    effectPct := 10, extraDaysPerVRI := 5, costPerBedDay := 12000,
    costPerVRI := 90000, pricingMode := "bedDays", capex := 350000,
    opexYear := 25000, capexAmortYears := 5 }

theorem normalize_defaults : normalize defaults = iDefaults := by decide

/-- The two pricing-mode tags are distinct strings. -/
theorem bedDays_ne_perVRI : ("bedDays" : String) ≠ "perVRI" := by decide

/-- Counterexample for C5: on the default parameter set the engine's
`bedDays` is `24 * 365 * 0.92 = 8059.2`, not the claimed `8056.8`. -/
theorem defaults_scenario_cex :
    (calculate (normalize defaults)).bedDays = 8059.2 ∧
    (calculate (normalize defaults)).bedDays ≠ 8056.8 := by
  rw [normalize_defaults]
  constructor <;>
    norm_num [calculate, bedDays, occupancy, clamp, iDefaults, min_def, max_def]

/-- C5 (amended): on the default parameter set, `calculate` returns
`bedDays = 8059.2`, `vri = 48.3552`, `gramNeg = 16.92432`,
`sinkGramNeg = 1.692432`, `avoided = 0.1692432`, `savedBedDays = 0.846216`,
`savedSEK = 10154.592`, `annualCost = 95000`, `net = -84845.408`, and
`paybackYears = NaN`. -/
theorem defaults_scenario :
    (calculate (normalize defaults)).bedDays = 8059.2 ∧
    (calculate (normalize defaults)).vri = 48.3552 ∧
    (calculate (normalize defaults)).gramNeg = 16.92432 ∧
    (calculate (normalize defaults)).sinkGramNeg = 1.692432 ∧
    (calculate (normalize defaults)).avoided = 0.1692432 ∧
    (calculate (normalize defaults)).savedBedDays = 0.846216 ∧
    (calculate (normalize defaults)).savedSEK = 10154.592 ∧
    (calculate (normalize defaults)).annualCost = 95000 ∧
    (calculate (normalize defaults)).net = -84845.408 ∧
    (calculate (normalize defaults)).paybackYears = none := by
  rw [normalize_defaults]
  refine ⟨?_, ?_, ?_, ?_, ?_, ?_, ?_, ?_, ?_, ?_⟩ <;>
    norm_num [calculate, bedDays, vri, vriFromRate, occupancy, gramNeg,
      sinkGramNeg, avoided, savedBedDays, savedSEK, annualizedCapex,
      annualCost, net, paybackYears, clamp, iDefaults, min_def, max_def,
      bedDays_ne_perVRI]

/-- C6: `savedSEK` is determined by exactly one pricing branch: in `perVRI`
mode it equals `avoided * costPerVRI` and is unchanged by any variation of
`costPerBedDay`; in `bedDays` mode it equals `savedBedDays * costPerBedDay`
and is unchanged by any variation of `costPerVRI`. -/
theorem pricing_exclusivity (i : CalcInput) (c : ℚ) :
    (i.pricingMode = "perVRI" →
      (calculate i).savedSEK = (calculate i).avoided * i.costPerVRI ∧
      (calculate { i with costPerBedDay := c }).savedSEK = (calculate i).savedSEK)
  ∧ (i.pricingMode = "bedDays" →
      (calculate i).savedSEK = (calculate i).savedBedDays * i.costPerBedDay ∧
      (calculate { i with costPerVRI := c }).savedSEK = (calculate i).savedSEK) := by
  constructor
  · intro h
    have h' : ({ i with costPerBedDay := c } : CalcInput).pricingMode = "perVRI" := h
    constructor
    · show savedSEK i = avoided i * i.costPerVRI
      rw [savedSEK, if_pos h]
    · show savedSEK { i with costPerBedDay := c } = savedSEK i
      rw [savedSEK, savedSEK, if_pos h, if_pos h']
      rfl
  · intro h
    have hne : ¬ i.pricingMode = "perVRI" := by rw [h]; decide
    have hne' : ¬ ({ i with costPerVRI := c } : CalcInput).pricingMode = "perVRI" := hne
    constructor
    · show savedSEK i = savedBedDays i * i.costPerBedDay
      rw [savedSEK, if_neg hne]
    · show savedSEK { i with costPerVRI := c } = savedSEK i
      rw [savedSEK, savedSEK, if_neg hne, if_neg hne']
      rfl

/-- Witness for C6 at the normalized defaults (which use `bedDays` mode):
`savedSEK` follows the bed-day formula and ignores `costPerVRI`. -/
theorem pricing_exclusivity_witness :
    (calculate iDefaults).savedSEK =
      (calculate iDefaults).savedBedDays * iDefaults.costPerBedDay ∧
    (calculate { iDefaults with costPerVRI := 123 }).savedSEK =
      (calculate iDefaults).savedSEK :=
  (pricing_exclusivity iDefaults 123).2 rfl

/-- The engine's occupancy fraction is clamped into `[0, 1]`, hence
nonnegative. -/
theorem occupancy_nonneg (i : CalcInput) : 0 ≤ occupancy i :=
  le_min (by norm_num) (le_max_left 0 _)

/-- Bed-days are nonnegative whenever the bed count is. -/
theorem bedDays_nonneg (i : CalcInput) (hb : 0 ≤ i.beds) : 0 ≤ bedDays i :=
  mul_nonneg (mul_nonneg hb (by norm_num)) (occupancy_nonneg i)

/-- The rate-derived infection estimate is nonnegative for in-range inputs. -/
theorem vriFromRate_nonneg (i : CalcInput) (hb : 0 ≤ i.beds)
    (hr : 0 ≤ i.vriPer1000BedDays) : 0 ≤ vriFromRate i :=
  mul_nonneg (div_nonneg hr (by norm_num)) (bedDays_nonneg i hb)

/-- The infection count used by the engine is nonnegative for in-range
inputs, whichever of the override and the rate path is taken. -/
theorem vri_nonneg (i : CalcInput) (hb : 0 ≤ i.beds)
    (hr : 0 ≤ i.vriPer1000BedDays) : 0 ≤ vri i := by
  rw [vri]
  cases hov : i.vriPerYearOverride with
  | none => exact vriFromRate_nonneg i hb hr
  | some x =>
    show 0 ≤ if 0 < x then x else vriFromRate i
    by_cases hx : 0 < x
    · rw [if_pos hx]; exact le_of_lt hx
    · rw [if_neg hx]; exact vriFromRate_nonneg i hb hr

/-- The sink-attributable gram-negative count is nonnegative for in-range
inputs. -/
theorem sinkGramNeg_nonneg (i : CalcInput) (hb : 0 ≤ i.beds)
    (hr : 0 ≤ i.vriPer1000BedDays) (hg : 0 ≤ i.gramNegPct)
    (hs : 0 ≤ i.sinkAttributablePct) : 0 ≤ sinkGramNeg i :=
  mul_nonneg
    (mul_nonneg (vri_nonneg i hb hr) (div_nonneg hg (by norm_num)))
    (div_nonneg hs (by norm_num))

/-- C7: for an in-bounds normalized input, raising `effectPct` (all other
fields fixed) never decreases `avoided`, `savedBedDays`, or `savedSEK`. -/
theorem effect_monotone (i : CalcInput) (e : ℚ) (hib : InBounds i)
    (h : i.effectPct ≤ e) :
    (calculate i).avoided ≤ (calculate { i with effectPct := e }).avoided ∧
    (calculate i).savedBedDays ≤
      (calculate { i with effectPct := e }).savedBedDays ∧
    (calculate i).savedSEK ≤ (calculate { i with effectPct := e }).savedSEK := by
  obtain ⟨hb, -, -, -, -, -, hr, -, hg, -, hs, -, -, -, hx, -, hcb, -, hcv, -,
    -, -, -, -, -, -⟩ := hib
  have hsg : 0 ≤ sinkGramNeg i := sinkGramNeg_nonneg i hb hr hg hs
  have hav : avoided i ≤ avoided { i with effectPct := e } := by
    show sinkGramNeg i * (i.effectPct / 100) ≤ sinkGramNeg i * (e / 100)
    have he : i.effectPct / 100 ≤ e / 100 := by linarith
    exact mul_le_mul_of_nonneg_left he hsg
  have hsbd : savedBedDays i ≤ savedBedDays { i with effectPct := e } :=
    mul_le_mul_of_nonneg_right hav hx
  refine ⟨hav, hsbd, ?_⟩
  show savedSEK i ≤ savedSEK { i with effectPct := e }
  by_cases hp : i.pricingMode = "perVRI"
  · have hp' : ({ i with effectPct := e } : CalcInput).pricingMode = "perVRI" := hp
    rw [savedSEK, savedSEK, if_pos hp, if_pos hp']
    exact mul_le_mul_of_nonneg_right hav hcv
  · have hp' : ¬ ({ i with effectPct := e } : CalcInput).pricingMode = "perVRI" := hp
    rw [savedSEK, savedSEK, if_neg hp, if_neg hp']
    exact mul_le_mul_of_nonneg_right hsbd hcb

/-- Witness for C7: raising the default effect from 10% to 20% does not
decrease any of the three savings metrics. -/
theorem effect_monotone_witness :
    (calculate iDefaults).avoided ≤
      (calculate { iDefaults with effectPct := 20 }).avoided ∧
    (calculate iDefaults).savedBedDays ≤
      (calculate { iDefaults with effectPct := 20 }).savedBedDays ∧
    (calculate iDefaults).savedSEK ≤
      (calculate { iDefaults with effectPct := 20 }).savedSEK :=
  effect_monotone iDefaults 20 (by decide) (by decide)

/-- C8: the advisory evaluator returns exactly the fixed messages of the
rules whose conditions hold, in declaration order, with no rule suppressing
another; in particular the zero-rate advisory fires when the rate is `0`
with no active override, and the low-attribution advisory fires at
`sinkAttributablePct = 3`. -/
theorem advisory_rules (i : CalcInput) (r : CalcResult) :
    (safetyNotes i r =
      (if r.usedOverride = false ∧ i.vriPer1000BedDays = 0
        then [noteZeroRate] else []) ++
      (if i.sinkAttributablePct ≤ 5 then [noteLowSink] else []) ++
      (if i.effectPct ≤ 5 then [noteLowEffect] else []) ++
      (if i.pricingMode = "bedDays" ∧ i.costPerBedDay = 0
        then [noteZeroCostBedDay] else []) ++
      (if i.pricingMode = "perVRI" ∧ i.costPerVRI = 0
        then [noteZeroCostVRI] else []))
    ∧ (i.vriPer1000BedDays = 0 → r.usedOverride = false →
        noteZeroRate ∈ safetyNotes i r)
    ∧ (i.sinkAttributablePct = 3 → noteLowSink ∈ safetyNotes i r) := by
  have heq : safetyNotes i r =
      (if r.usedOverride = false ∧ i.vriPer1000BedDays = 0
        then [noteZeroRate] else []) ++
      (if i.sinkAttributablePct ≤ 5 then [noteLowSink] else []) ++
      (if i.effectPct ≤ 5 then [noteLowEffect] else []) ++
      (if i.pricingMode = "bedDays" ∧ i.costPerBedDay = 0
        then [noteZeroCostBedDay] else []) ++
      (if i.pricingMode = "perVRI" ∧ i.costPerVRI = 0
        then [noteZeroCostVRI] else []) := by
    simp only [safetyNotes]
    split_ifs <;> simp
  refine ⟨heq, ?_, ?_⟩
  · intro h0 hov
    rw [heq, if_pos ⟨hov, h0⟩]
    simp
  · intro h3
    have h5 : i.sinkAttributablePct ≤ 5 := by rw [h3]; norm_num
    rw [heq, if_pos h5]
    simp

/-- A degenerate input: zero infection rate, no override, attribution 3%. -/
def iDegenerate : CalcInput :=
  { iDefaults with
    vriPer1000BedDays := 0
    vriPerYearOverride := none
    sinkAttributablePct := 3 }

/-- Witness for C8: at `iDegenerate`, both the zero-infection and the
low-attribution advisories are present. -/
theorem advisory_rules_witness :
    noteZeroRate ∈ safetyNotes iDegenerate (calculate iDegenerate) ∧
    noteLowSink ∈ safetyNotes iDegenerate (calculate iDegenerate) :=
  ⟨(advisory_rules iDegenerate (calculate iDegenerate)).2.1 rfl rfl,
   (advisory_rules iDegenerate (calculate iDegenerate)).2.2 rfl⟩

/-- C9: for an in-bounds normalized input, whenever `paybackYears` is a
(finite) number `p`, it satisfies `0 ≤ p ≤ capex`: the divisor
`max(1, savedSEK - opexYear)` is at least `1` and `capex` is nonnegative. -/
theorem payback_bounded (i : CalcInput) (p : ℚ) (hib : InBounds i)
    (hp : (calculate i).paybackYears = some p) : 0 ≤ p ∧ p ≤ i.capex := by
  obtain ⟨-, -, -, -, -, -, -, -, -, -, -, -, -, -, -, -, -, -, -, -,
    hcap, -, -, -, -, -⟩ := hib
  have hp' : paybackYears i = some p := hp
  rw [paybackYears] at hp'
  split_ifs at hp' with h
  · have hpe : p = i.capex / max 1 (savedSEK i - i.opexYear) :=
      (Option.some_inj.mp hp').symm
    have h1 : (1 : ℚ) ≤ max 1 (savedSEK i - i.opexYear) := le_max_left _ _
    constructor
    · rw [hpe]
      exact div_nonneg hcap (le_trans zero_le_one h1)
    · rw [hpe]
      exact div_le_self hcap h1

/-- The normalized defaults with the operating cost lowered just below the
computed savings, so that payback is finite. -/
def iRecoverable : CalcInput := { iDefaults with opexYear := 10154 }

/-- Witness for C9: at `iRecoverable`, payback is the finite value `350000`
(savings exceed the operating cost by less than `1`, so the guard divides by
`1`), which lies between `0` and the input's `capex`. -/
theorem payback_bounded_witness :
    0 ≤ (350000 : ℚ) ∧ (350000 : ℚ) ≤ iRecoverable.capex :=
  payback_bounded iRecoverable 350000 (by decide) (by
    show paybackYears iRecoverable = some 350000
    norm_num [paybackYears, savedSEK, savedBedDays, avoided, sinkGramNeg,
      gramNeg, vri, vriFromRate, bedDays, occupancy, clamp, iRecoverable,
      iDefaults, min_def, max_def, bedDays_ne_perVRI])

/-- C10: an empty-string raw value parses to `0` (not NaN) — the same value
as an explicit `"0"` — so a blank bounded field normalizes to `max(lo, 0)`
(`0` everywhere except `capexAmortYears`, which becomes `1`), a blank
override normalizes to `0`, and the engine treats an override of `0` by
taking the rate path with `usedOverride = false`. -/
theorem blank_input_semantics :
    toNum (JSVal.str "") = some 0 ∧
    toNum (JSVal.str "0") = toNum (JSVal.str "") ∧
    (∀ s : StateType,
      (s.beds = JSVal.str "" → (normalize s).beds = 0) ∧
      (s.occupancyPct = JSVal.str "" → (normalize s).occupancyPct = 0) ∧
      (s.alosDays = JSVal.str "" → (normalize s).alosDays = 0) ∧
      (s.vriPer1000BedDays = JSVal.str "" →
        (normalize s).vriPer1000BedDays = 0) ∧
      (s.gramNegPct = JSVal.str "" → (normalize s).gramNegPct = 0) ∧
      (s.sinkAttributablePct = JSVal.str "" →
        (normalize s).sinkAttributablePct = 0) ∧
      (s.effectPct = JSVal.str "" → (normalize s).effectPct = 0) ∧
      (s.extraDaysPerVRI = JSVal.str "" → (normalize s).extraDaysPerVRI = 0) ∧
      (s.costPerBedDay = JSVal.str "" → (normalize s).costPerBedDay = 0) ∧
      (s.costPerVRI = JSVal.str "" → (normalize s).costPerVRI = 0) ∧
      (s.capex = JSVal.str "" → (normalize s).capex = 0) ∧
      (s.opexYear = JSVal.str "" → (normalize s).opexYear = 0) ∧
      (s.capexAmortYears = JSVal.str "" → (normalize s).capexAmortYears = 1) ∧
      (s.vriPerYearOverride = JSVal.str "" →
        (normalize s).vriPerYearOverride = some 0)) ∧
    (∀ i : CalcInput, i.vriPerYearOverride = some 0 →
      (calculate i).usedOverride = false ∧
      (calculate i).vri = (calculate i).vriFromRate) := by
  refine ⟨by decide, by decide, fun s => ?_, fun i h => ?_⟩
  · refine ⟨fun h => ?_, fun h => ?_, fun h => ?_, fun h => ?_, fun h => ?_,
      fun h => ?_, fun h => ?_, fun h => ?_, fun h => ?_, fun h => ?_,
      fun h => ?_, fun h => ?_, fun h => ?_, fun h => ?_⟩
    · show clamp (toNum s.beds) 0 2000 = 0
      rw [h]; decide
    · show clamp (toNum s.occupancyPct) 0 100 = 0
      rw [h]; decide
    · show clamp (toNum s.alosDays) 0 365 = 0
      rw [h]; decide
    · show clamp (toNum s.vriPer1000BedDays) 0 200 = 0
      rw [h]; decide
    · show clamp (toNum s.gramNegPct) 0 100 = 0
      rw [h]; decide
    · show clamp (toNum s.sinkAttributablePct) 0 100 = 0
      rw [h]; decide
    · show clamp (toNum s.effectPct) 0 100 = 0
      rw [h]; decide
    · show clamp (toNum s.extraDaysPerVRI) 0 365 = 0
      rw [h]; decide
    · show clamp (toNum s.costPerBedDay) 0 1000000 = 0
      rw [h]; decide
    · show clamp (toNum s.costPerVRI) 0 10000000 = 0
      rw [h]; decide
    · show clamp (toNum s.capex) 0 100000000 = 0
      rw [h]; decide
    · show clamp (toNum s.opexYear) 0 100000000 = 0
      rw [h]; decide
    · show clamp (toNum s.capexAmortYears) 1 20 = 1
      rw [h]; decide
    · show toNum s.vriPerYearOverride = some 0
      rw [h]; decide
  · constructor
    · show usedOverride i = false
      simp [usedOverride, h]
    · show vri i = vriFromRate i
      simp [vri, h]

/-- A raw state with every numeric field left blank. -/
def sBlank : StateType :=
  { beds := JSVal.str "", occupancyPct := JSVal.str "",
    alosDays := JSVal.str "", vriPer1000BedDays := JSVal.str "",
    vriPerYearOverride := JSVal.str "", gramNegPct := JSVal.str "",
    sinkAttributablePct := JSVal.str "", effectPct := JSVal.str "",
    extraDaysPerVRI := JSVal.str "", costPerBedDay := JSVal.str "",
    costPerVRI := JSVal.str "", pricingMode := "bedDays",
    capex := JSVal.str "", opexYear := JSVal.str "",
    capexAmortYears := JSVal.str "" }

/-- Witness for C10 on the all-blank state: `beds` normalizes to `0`,
`capexAmortYears` to `1`, and the blank override puts the engine on the
rate path. -/
theorem blank_input_semantics_witness :
    (normalize sBlank).beds = 0 ∧
    (normalize sBlank).capexAmortYears = 1 ∧
    (calculate (normalize sBlank)).usedOverride = false :=
  ⟨(blank_input_semantics.2.2.1 sBlank).1 rfl,
   (blank_input_semantics.2.2.1
      sBlank).2.2.2.2.2.2.2.2.2.2.2.2.1 rfl,
   (blank_input_semantics.2.2.2 (normalize sBlank) (by decide)).1⟩

end Handfat
